import Mathlib

/-!
Verification development for the Meta-ETL pipeline (MetaETL.py).

The Python source is shallowly embedded: records from the upstream API are
association lists of Python-like values, the schema validator, datetime
normalizers, backoff wrapper, pagination loops, consistency filter and the
per-entity upsert statements are translated as executable Lean functions.
External collaborators (the HTTP client, the database driver, the Python
standard library datetime parser) are modelled at the interface granularity
the source uses them.
-/

/-- Python runtime values as they occur in the ETL records: None, bool, int,
float (modelled exactly as a rational), str, datetime.date objects (carried
with their ISO rendering) and lists. -/
inductive PyVal where
  | vNone
  | vBool (b : Bool)
  | vInt (n : Int)
  | vFloat (q : ℚ)
  | vStr (s : String)
  | vDate (iso : String)
  | vList (xs : List PyVal)

mutual

/-- Structural equality test on Python values (Python == on these shapes). -/
def PyVal.beq : PyVal → PyVal → Bool
  | .vNone, .vNone => true
  | .vBool a, .vBool b => a == b
  | .vInt a, .vInt b => a == b
  | .vFloat a, .vFloat b => a == b
  | .vStr a, .vStr b => a == b
  | .vDate a, .vDate b => a == b
  | .vList a, .vList b => PyVal.beqList a b
  | _, _ => false

/-- Elementwise equality test on lists of Python values. -/
def PyVal.beqList : List PyVal → List PyVal → Bool
  | [], [] => true
  | a :: as, b :: bs => PyVal.beq a b && PyVal.beqList as bs
  | _, _ => false

end

mutual

/-- Equality test PyVal.beq is reflexive. -/
def PyVal.beq_self : (v : PyVal) → PyVal.beq v v = true
  | .vNone => rfl
  | .vBool b => by simp [PyVal.beq]
  | .vInt n => by simp [PyVal.beq]
  | .vFloat q => by simp [PyVal.beq]
  | .vStr s => by simp [PyVal.beq]
  | .vDate s => by simp [PyVal.beq]
  | .vList xs => PyVal.beqList_self xs

/-- Equality test PyVal.beqList is reflexive. -/
def PyVal.beqList_self : (l : List PyVal) → PyVal.beqList l l = true
  | [] => rfl
  | a :: as => by simp [PyVal.beqList, PyVal.beq_self a, PyVal.beqList_self as]

end

/-- Python type name of a value, as used in validator error messages. -/
def PyVal.typeName : PyVal → String
  | .vNone => "NoneType"
  | .vBool _ => "bool"
  | .vInt _ => "int"
  | .vFloat _ => "float"
  | .vStr _ => "str"
  | .vDate _ => "date"
  | .vList _ => "list"

/-- An upstream record: a Python dict rendered as an association list in
insertion order. -/
abbrev Rec := List (String × PyVal)

/-- Test whether a record has the given key (Python: field in data). -/
def hasKey (data : Rec) (k : String) : Bool :=
  data.any (fun p => p.1 == k)

/-- First value stored under a key, with a default (Python: data.get(k, d)). -/
def recGet (data : Rec) (k : String) (d : PyVal) : PyVal :=
  match data.find? (fun p => p.1 == k) with
  | some p => p.2
  | none => d

/-- Dict assignment data[k] = v: replaces the value in place when the key is
present, otherwise appends the new key at the end (Python dict order). -/
def recSet (data : Rec) (k : String) (v : PyVal) : Rec :=
  if hasKey data k then data.map (fun p => if p.1 == k then (p.1, v) else p)
  else data ++ [(k, v)]

/-- Declared schema of one field, from the dict literals in MetaETL.py:
keys type, required, nullable, format, all optional. -/
structure FieldSchema where
  type : Option String := none
  required : Bool := false
  nullable : Bool := false
  format : Option String := none
deriving DecidableEq

/-- A declarative schema: mapping from field name to its field schema. -/
abbrev Schema := List (String × FieldSchema)

/-- Schema lookup (Python: schema[field] / field in schema). -/
def lookupField (schema : Schema) (k : String) : Option FieldSchema :=
  (schema.find? (fun p => p.1 == k)).map (fun p => p.2)

/-- Validator error report grouped by category, mirroring the errors dict of
validate_schema with its keys required, type and format. -/
structure ValidationErrors where
  required : List String := []
  typeErrs : List String := []
  formatErrs : List String := []

/-- Python truthiness of the errors dict: empty means the record is valid. -/
def ValidationErrors.isEmpty (e : ValidationErrors) : Bool :=
  e.required.isEmpty && e.typeErrs.isEmpty && e.formatErrs.isEmpty

/-- Test for the None value. -/
def PyVal.isNone : PyVal → Bool
  | .vNone => true
  | _ => false

/-- Type-category errors contributed by one present field, translated from the
second loop of validate_schema (MetaETL.py lines 60 to 72): a nullable None is
skipped entirely; a string-typed field accepts date objects transparently;
an array-typed field must hold a list; integer and number types are never
checked. Message quoting is dropped, content otherwise as in the source. -/
def fieldTypeErrors (fname : String) (fs : FieldSchema) (v : PyVal) : List String :=
  if v.isNone && fs.nullable then []
  else if fs.type = some "string" then
    match v with
    | .vDate _ => []
    | .vStr _ => []
    | _ => ["Field " ++ fname ++ " should be a string, got " ++ v.typeName]
  else if fs.type = some "array" then
    match v with
    | .vList _ => []
    | _ => ["Field " ++ fname ++ " should be an array, got " ++ v.typeName]
  else []

/-- Format-category errors contributed by one present field, translated from
validate_schema lines 73 to 83: only string-typed, string-valued fields with a
declared datetime format are checked; a trailing Z and then a trailing +0000
are rewritten to +00:00 before the ISO parse (the two endswith rewrites are
rendered on the character list of the string). The ISO parse of the Python
standard library is supplied as the predicate parseOk. -/
def fieldFormatErrors (parseOk : String → Bool) (fname : String) (fs : FieldSchema)
    (v : PyVal) : List String :=
  if v.isNone && fs.nullable then []
  else if fs.type = some "string" then
    match v with
    | .vStr s =>
      match fs.format with
      | some fmt =>
        if fmt = "datetime" then
          let cs := s.data
          let cs1 := if cs.getLast? == some 'Z'
            then cs.dropLast ++ "+00:00".data else cs
          let cs2 := if cs1.reverse.take 5 == "0000+".data
            then (cs1.reverse.drop 5).reverse ++ "+00:00".data else cs1
          if parseOk (String.mk cs2) then []
          else ["Field " ++ fname ++ " should be a valid datetime"]
        else []
      | none => []
    | _ => []
  else []

/-- Schema validator, translated from validate_schema (MetaETL.py lines 55 to
84): required errors for schema fields absent from the record, then type and
format errors for each present field that the schema knows; fields absent from
the schema are not inspected. -/
def validate_schema (parseOk : String → Bool) (data : Rec) (schema : Schema) :
    ValidationErrors :=
  { required :=
      (schema.filter (fun p => p.2.required && !(hasKey data p.1))).map
        (fun p => "Missing required field: " ++ p.1)
  , typeErrs :=
      (data.map (fun p =>
        match lookupField schema p.1 with
        | none => []
        | some fs => fieldTypeErrors p.1 fs p.2)).flatten
  , formatErrs :=
      (data.map (fun p =>
        match lookupField schema p.1 with
        | none => []
        | some fs => fieldFormatErrors parseOk p.1 fs p.2)).flatten }

/-- CAMPAIGN_SCHEMA of MetaETL.py lines 86 to 95. -/
def CAMPAIGN_SCHEMA : Schema :=
  [ ("id", { type := some "string", required := true })
  , ("name", { type := some "string", required := true })
  , ("status", { type := some "string", required := true })
  , ("objective", { type := some "string", nullable := true })
  , ("buying_type", { type := some "string", nullable := true })
  , ("special_ad_categories", { type := some "array", nullable := true })
  , ("start_time", { type := some "string", nullable := true, format := some "datetime" })
  , ("end_time", { type := some "string", nullable := true, format := some "datetime" }) ]

/-- AD_INSIGHTS_HOURLY_SNAPSHOT_SCHEMA of MetaETL.py lines 98 to 126. -/
def AD_INSIGHTS_HOURLY_SNAPSHOT_SCHEMA : Schema :=
  [ ("snapshot_hour", { type := some "string", required := true, format := some "datetime" })
  , ("ad_id", { type := some "string", required := true })
  , ("adset_id", { type := some "string", required := true })
  , ("campaign_id", { type := some "string", required := true })
  , ("account_id", { type := some "string", required := true })
  , ("date_start", { type := some "string", required := true, format := some "date" })
  , ("date_stop", { type := some "string", required := true, format := some "date" })
  , ("clicks", { type := some "integer", nullable := true })
  , ("impressions", { type := some "integer", nullable := true })
  , ("spend", { type := some "number", nullable := true })
  , ("reach", { type := some "integer", nullable := true })
  , ("page_engagement", { type := some "integer", nullable := true })
  , ("post_engagement", { type := some "integer", nullable := true })
  , ("video_view", { type := some "integer", nullable := true })
  , ("landing_page_view", { type := some "integer", nullable := true })
  , ("purchase", { type := some "integer", nullable := true })
  , ("add_to_cart", { type := some "integer", nullable := true })
  , ("link_click", { type := some "integer", nullable := true })
  , ("post_reaction", { type := some "integer", nullable := true })
  , ("outbound_click", { type := some "integer", nullable := true })
  , ("purchase_value", { type := some "number", nullable := true })
  , ("view_content_value", { type := some "number", nullable := true })
  , ("add_to_cart_value", { type := some "number", nullable := true })
  , ("ctr", { type := some "number", nullable := true })
  , ("cpp", { type := some "number", nullable := true })
  , ("video_p25_watched", { type := some "integer", nullable := true })
  , ("video_thruplay_watched", { type := some "integer", nullable := true }) ]

/-- Core of the datetime normalizers of MetaETL.py (normalize_datetime, lines
342 to 351, and normalize_activity_datetime, lines 437 to 446), on character
lists: a trailing Z becomes +00:00; otherwise the regex matching a trailing
sign and four digits (where the dot of the leading group cannot cross a
newline, so a newline before the offset defeats the match; digits are modelled
as ASCII decimal digits, the only digits the upstream emits) inserts a colon
into the offset; otherwise the input is returned unchanged. -/
def normalizeDTCore (cs : List Char) : List Char :=
  if cs.getLast? == some 'Z' then cs.dropLast ++ "+00:00".toList
  else
    match cs.reverse with
    | m2 :: m1 :: h2 :: h1 :: sign :: restRev =>
      if (sign == '+' || sign == '-') && h1.isDigit && h2.isDigit && m1.isDigit
          && m2.isDigit && !(restRev.contains '\n') then
        restRev.reverse ++ [sign, h1, h2, ':', m1, m2]
      else cs
    | _ => cs

/-- Datetime normalizer of the campaigns extractor (MetaETL.py lines 342 to
351). -/
def normalize_datetime (s : String) : String :=
  String.mk (normalizeDTCore s.data)

/-- Datetime normalizer of the activity-history extractor (MetaETL.py lines
437 to 446); its body is identical to normalize_datetime. -/
def normalize_activity_datetime (s : String) : String :=
  String.mk (normalizeDTCore s.data)

/-- Generated-column expressions of the hourly snapshot table
(CREATE_TABLES_SQL, MetaETL.py lines 284 to 290), with NUMERIC arithmetic
modelled exactly over the rationals. Return on ad spend. -/
def roasGen (spend purchase_value : ℚ) : ℚ :=
  if spend > 0 then purchase_value / spend else 0

/-- Generated column calc_ctr: click-through rate. -/
def calcCtrGen (clicks impressions : ℚ) : ℚ :=
  if impressions > 0 then clicks / impressions * 100 else 0

/-- Generated column calc_cpp: cost per purchase. -/
def calcCppGen (spend purchase : ℚ) : ℚ :=
  if purchase > 0 then spend / purchase else 0

/-- Generated column calc_cpr: cost per reach. -/
def calcCprGen (spend reach : ℚ) : ℚ :=
  if reach > 0 then spend / reach else 0

/-- Generated column hook_rate. -/
def hookRateGen (page_engagement impressions : ℚ) : ℚ :=
  if impressions > 0 then page_engagement / impressions * 100 else 0

/-- Generated column hold_rate. -/
def holdRateGen (video_view page_engagement : ℚ) : ℚ :=
  if page_engagement > 0 then video_view / page_engagement * 100 else 0

/-- Generated column conversion_rate. -/
def conversionRateGen (purchase landing_page_view : ℚ) : ℚ :=
  if landing_page_view > 0 then purchase / landing_page_view * 100 else 0

/-- Outcome of one attempt of the wrapped request callable: a response, or an
HTTPError whose body yields the given upstream error code (none when the error
body cannot be parsed). -/
inductive ApiOutcome where
  | ok (resp : String)
  | httpError (code : Option Int)
deriving DecidableEq

/-- Result of a whole pass through the backoff wrapper: a normal return
(none being the no-result sentinel after exhausting retries) or a propagated
exception. -/
inductive BackoffResult where
  | returned (resp : Option String)
  | raised (code : Option Int)
deriving DecidableEq

/-- A run of the backoff wrapper: its result together with the sleeps it
performed, in order. -/
structure BackoffRun where
  result : BackoffResult
  delays : List ℚ
deriving DecidableEq

/-- Retry loop of api_request_with_backoff (MetaETL.py lines 315 to 334): for
each remaining attempt, call the request function; a success returns at once;
an HTTPError with upstream code 80004 sleeps the current delay, doubles it and
retries; any other error propagates; an exhausted loop returns the None
sentinel. The attempt counter indexes the request function so a theorem can
speak about the outcome of each successive attempt. -/
def backoffLoop (f : Nat → ApiOutcome) :
    Nat → Nat → ℚ → List ℚ → BackoffRun
  | _, 0, _, acc => ⟨.returned none, acc.reverse⟩
  | attempt, rem + 1, delay, acc =>
    match f attempt with
    | .ok resp => ⟨.returned (some resp), acc.reverse⟩
    | .httpError code =>
      if code == some 80004 then
        backoffLoop f (attempt + 1) rem (2 * delay) (delay :: acc)
      else ⟨.raised code, acc.reverse⟩

/-- Backoff wrapper api_request_with_backoff: max_retries is 5 and the first
delay is the configured base interval RATE_LIMIT_INTERVAL. -/
def api_request_with_backoff (f : Nat → ApiOutcome) (base : ℚ) : BackoffRun :=
  backoffLoop f 0 5 base []

/-- One page of a list endpoint response: its data array and whether a
paging.next continuation reference is present. -/
structure ApiPage where
  pageRows : List Rec
  hasNext : Bool

/-- Pagination loop shared by fetch_adcreatives_batch, fetch_adsets_batch and
fetch_ads_batch (MetaETL.py lines 548 to 572, 613 to 669, 756 to 780): the
input list holds the successive backoff-wrapped responses (none models the
rate-limit no-result sentinel, on which the loop breaks); rows of each page
are accumulated and the loop continues only while a next reference remains. -/
def fetchPagesLoop : List (Option ApiPage) → List Rec
  | [] => []
  | none :: _ => []
  | some p :: rest => p.pageRows ++ (if p.hasNext then fetchPagesLoop rest else [])

/-- Request shape of fetch_ad_insights (MetaETL.py lines 811 to 851): one
direct requests.get call, not routed through the backoff wrapper, whose data
array is consumed without ever consulting a paging.next reference. The input
lists the pages the upstream would serve to a paginating client. -/
def fetch_ad_insights_rows : List ApiPage → List Rec
  | p :: _ => p.pageRows
  | [] => []

/-- Modelled from the spec: an extractor that keeps requesting subsequent
pages until no continuation reference remains, accumulating all rows. This is
the behavior the specification ascribes to every extractor. -/
def fetchAllPagesSpec : List ApiPage → List Rec
  | [] => []
  | p :: rest => p.pageRows ++ (if p.hasNext then fetchAllPagesSpec rest else [])

/-- A row bound for one of the bulk INSERT statements: the positional value
tuple built by the extractors, aligned with the INSERT column list. -/
abbrev DbRow := List PyVal

/-- One entity type of the reconciliation layer: its INSERT column list in
order, its ON CONFLICT natural-key columns, and the columns its DO UPDATE SET
clause assigns, all transcribed from the SQL strings in MetaETL.py. -/
structure EntityUpsert where
  tableName : String
  cols : List String
  conflictCols : List String
  updateCols : List String

/-- Value of a named column in a positional row (vNone when absent). -/
def rowVal (e : EntityUpsert) (r : DbRow) (c : String) : PyVal :=
  r.getD (e.cols.indexOf c) PyVal.vNone

/-- Natural key of a row: its values at the conflict columns. -/
def keyOf (e : EntityUpsert) (r : DbRow) : List PyVal :=
  e.conflictCols.map (rowVal e r)

/-- ON CONFLICT DO UPDATE merge: every column in the update set takes the
incoming (EXCLUDED) value, every other column keeps the stored value. The
hourly-snapshot statement assigns created_at from NOW() rather than EXCLUDED;
the caller builds the incoming created_at from the same clock, so the merge
takes the incoming value there as well. -/
def mergeRow (e : EntityUpsert) (old new : DbRow) : DbRow :=
  (List.range e.cols.length).map (fun j =>
    if e.cols.getD j "" ∈ e.updateCols then new.getD j PyVal.vNone
    else old.getD j PyVal.vNone)

/-- Effect of inserting one row through INSERT ... ON CONFLICT DO UPDATE on a
store of persisted rows: a key match updates in place, otherwise the row is
appended. -/
def upsertRow (e : EntityUpsert) (store : List DbRow) (r : DbRow) : List DbRow :=
  if store.any (fun s => PyVal.beqList (keyOf e s) (keyOf e r)) then
    store.map (fun s =>
      if PyVal.beqList (keyOf e s) (keyOf e r) then mergeRow e s r else s)
  else store ++ [r]

/-- Campaign upsert of the orchestrator (MetaETL.py lines 944 to 967). -/
def dimCampaignUpsert : EntityUpsert :=
  { tableName := "dim_campaign"
  , cols := ["campaign_id", "account_id", "campaign_name", "objective", "status",
      "buying_type", "special_ad_categories", "start_time", "end_time",
      "budget_remaining", "daily_budget", "lifetime_budget", "created_at",
      "updated_at", "hour", "fetched_at"]
  , conflictCols := ["campaign_id"]
  , updateCols := ["account_id", "campaign_name", "objective", "status",
      "buying_type", "special_ad_categories", "start_time", "end_time",
      "budget_remaining", "daily_budget", "lifetime_budget", "updated_at",
      "hour", "fetched_at"] }

/-- Activity-history upsert (upsert_activity_history, lines 453 to 465). -/
def activityHistoryUpsert : EntityUpsert :=
  { tableName := "ad_account_activity_history"
  , cols := ["object_id", "object_name", "object_type", "event_type",
      "changed_fields", "extra_data", "actor_id", "actor_name", "event_time",
      "hour", "fetched_at"]
  , conflictCols := ["object_id", "event_type", "event_time", "hour"]
  , updateCols := ["object_name", "object_type", "changed_fields", "extra_data",
      "actor_id", "actor_name", "fetched_at"] }

/-- Regionwise-insights upsert (upsert_regionwise_insights, lines 518 to 527). -/
def regionwiseInsightsUpsert : EntityUpsert :=
  { tableName := "ad_insights_regionwise"
  , cols := ["ad_id", "impressions", "clicks", "ctr", "date_start", "date_stop",
      "region", "hour", "fetched_at"]
  , conflictCols := ["ad_id", "date_start", "date_stop", "region", "hour"]
  , updateCols := ["impressions", "clicks", "ctr", "fetched_at"] }

/-- Ad-creatives upsert (upsert_adcreatives, lines 581 to 593). -/
def adCreativesUpsert : EntityUpsert :=
  { tableName := "ad_creatives"
  , cols := ["id", "name", "body", "title", "object_story_spec",
      "call_to_action_type", "hour", "fetched_at", "raw_data"]
  , conflictCols := ["id", "hour"]
  , updateCols := ["name", "body", "title", "object_story_spec",
      "call_to_action_type", "fetched_at", "raw_data"] }

/-- Ad-sets upsert (upsert_adsets, lines 692 to 736). -/
def adsetsUpsert : EntityUpsert :=
  { tableName := "adsets"
  , cols := ["id", "name", "campaign_id", "account_id", "status",
      "optimization_goal", "billing_event", "bid_strategy", "bid_amount",
      "daily_budget", "lifetime_budget", "budget_remaining", "start_time",
      "end_time", "created_time", "updated_time", "effective_status",
      "destination_type", "learning_stage_info", "attribution_spec",
      "promoted_object", "targeting", "pacing_type", "adlabels",
      "bid_adjustments", "bid_constraints", "adset_schedule", "issues_info",
      "creative_sequence", "daily_spend_cap", "lifetime_spend_cap",
      "daily_min_spend_target", "lifetime_min_spend_target",
      "is_dynamic_creative", "rf_prediction_id",
      "time_based_ad_rotation_id_blocks", "time_based_ad_rotation_intervals",
      "frequency_control_specs", "hour", "fetched_at", "raw_data"]
  , conflictCols := ["id", "hour"]
  , updateCols := ["name", "campaign_id", "account_id", "status",
      "optimization_goal", "billing_event", "bid_strategy", "bid_amount",
      "daily_budget", "lifetime_budget", "budget_remaining", "start_time",
      "end_time", "created_time", "updated_time", "effective_status",
      "destination_type", "learning_stage_info", "attribution_spec",
      "promoted_object", "targeting", "pacing_type", "adlabels",
      "bid_adjustments", "bid_constraints", "adset_schedule", "issues_info",
      "creative_sequence", "daily_spend_cap", "lifetime_spend_cap",
      "daily_min_spend_target", "lifetime_min_spend_target",
      "is_dynamic_creative", "rf_prediction_id",
      "time_based_ad_rotation_id_blocks", "time_based_ad_rotation_intervals",
      "frequency_control_specs", "fetched_at", "raw_data"] }

/-- Ads upsert (upsert_ads, lines 789 to 799). -/
def adsUpsert : EntityUpsert :=
  { tableName := "ads"
  , cols := ["id", "name", "adset_id", "targeting", "insights", "hour",
      "fetched_at", "raw_data"]
  , conflictCols := ["id", "hour"]
  , updateCols := ["name", "adset_id", "targeting", "insights", "fetched_at",
      "raw_data"] }

/-- Hourly-snapshot upsert (upsert_hourly_ad_insights, lines 860 to 875).
Note that the DO UPDATE SET clause assigns created_at=NOW() and does not
assign adset_id, campaign_id or account_id. -/
def hourlyInsightsUpsert : EntityUpsert :=
  { tableName := "ad_insights_hourly_snapshots"
  , cols := ["snapshot_hour", "ad_id", "adset_id", "campaign_id", "account_id",
      "date_start", "date_stop", "clicks", "impressions", "spend", "reach",
      "page_engagement", "post_engagement", "video_view", "landing_page_view",
      "purchase", "add_to_cart", "link_click", "post_reaction",
      "outbound_click", "purchase_value", "view_content_value",
      "add_to_cart_value", "ctr", "cpp", "video_p25_watched",
      "video_thruplay_watched", "created_at"]
  , conflictCols := ["snapshot_hour", "ad_id", "date_start", "date_stop"]
  , updateCols := ["clicks", "impressions", "spend", "reach", "page_engagement",
      "post_engagement", "video_view", "landing_page_view", "purchase",
      "add_to_cart", "link_click", "post_reaction", "outbound_click",
      "purchase_value", "view_content_value", "add_to_cart_value", "ctr",
      "cpp", "video_p25_watched", "video_thruplay_watched", "created_at"] }

/-- Upsert statements of all seven entity types, in orchestrator order. -/
def allEntityUpserts : List EntityUpsert :=
  [dimCampaignUpsert, activityHistoryUpsert, regionwiseInsightsUpsert,
   adCreativesUpsert, adsetsUpsert, adsUpsert, hourlyInsightsUpsert]

/-- Statement of claim C3 as written: an update set that excludes the
natural-key columns and excludes the creation timestamp. -/
def updateSetExcludesKeysAndCreation (e : EntityUpsert) : Bool :=
  e.updateCols.all (fun c => !(e.conflictCols.contains c) && !(c == "created_at"))

/-- Outcome of one orchestrator step, as the per-step try/except of main
records it. -/
inductive StepStatus where
  | completed
  | failed (msg : String)
deriving DecidableEq

/-- A bulk statement applied to the committed store: the per-row effect is
folded over the batch and any row-level error fails the whole statement with
no effect, which is the atomicity the warehouse collaborator guarantees for a
single bulk statement. -/
def executeValuesAtomic {ρ σ : Type} (insertRow : σ → ρ → Except String σ)
    (store : σ) (rows : List ρ) : Except String σ :=
  rows.foldlM insertRow store

/-- One reconciliation step, translated from the shared shape of the upsert
functions (upsert_adsets lines 687 to 745 and its six siblings) under the
per-step try/except of main (lines 996 to 1004): an empty batch returns
without touching the warehouse; otherwise the bulk statement runs and commits,
and an error is logged and re-raised, leaving the committed store unchanged
and the step marked failed. -/
def runUpsertStep {ρ σ : Type} (insertRow : σ → ρ → Except String σ)
    (store : σ) (rows : List ρ) : σ × StepStatus :=
  if rows.isEmpty then (store, .completed)
  else
    match executeValuesAtomic insertRow store rows with
    | .ok s2 => (s2, .completed)
    | .error e => (store, .failed e)

/-- Membership test used by the Consistency Filter: row position 2 is
campaign_id in the ad-set tuple, and it is checked against the set of
campaign_id values read from dim_campaign (Python set membership; a non-string
value such as None never equals a stored string key). -/
def campaignKnown (existing_campaign_ids : List String) (adset : DbRow) : Bool :=
  match adset.getD 2 PyVal.vNone with
  | .vStr c => existing_campaign_ids.contains c
  | _ => false

/-- Consistency Filter, translated from filter_adsets_with_existing_campaigns
(MetaETL.py lines 673 to 685): an empty batch short-circuits; otherwise the
rows whose campaign_id is among the persisted campaign keys are kept. -/
def filter_adsets_with_existing_campaigns (adsets : List DbRow)
    (existing_campaign_ids : List String) : List DbRow :=
  if adsets.isEmpty then []
  else adsets.filter (campaignKnown existing_campaign_ids)

/-- Rows the Consistency Filter drops and logs (the missing list of
filter_adsets_with_existing_campaigns). -/
def missing_adsets (adsets : List DbRow) (existing_campaign_ids : List String) :
    List DbRow :=
  if adsets.isEmpty then []
  else adsets.filter (fun a => !(campaignKnown existing_campaign_ids a))

/-- Matcher for fixed character patterns, where d stands for an ASCII digit
and any other pattern character for itself. -/
def matchesPat : List Char → List Char → Bool
  | [], [] => true
  | c :: cs, p :: ps => (if p = 'd' then c.isDigit else c == p) && matchesPat cs ps
  | _, _ => false

/-- Python datetime.fromisoformat of the standard library, modelled for the
string shapes this pipeline produces: a date, a datetime, or a datetime with a
colon-separated numeric offset. -/
def isoParseOk (s : String) : Bool :=
  matchesPat s.data "dddd-dd-dd".data
  || matchesPat s.data "dddd-dd-ddTdd:dd:dd".data
  || matchesPat s.data "dddd-dd-ddTdd:dd:dd+dd:dd".data
  || matchesPat s.data "dddd-dd-ddTdd:dd:dd-dd:dd".data

/-- Python int() applied to a fetched value: ints pass, bools coerce, floats
truncate toward zero, numeric strings parse; None and containers raise, which
the caller turns into skipping the record. -/
def pyIntOpt : PyVal → Option Int
  | .vInt n => some n
  | .vBool b => some (if b then 1 else 0)
  | .vFloat q => some (if q < 0 then ⌈q⌉ else ⌊q⌋)
  | .vStr s => s.toInt?
  | _ => none

/-- Decimal string parse backing the float() model. -/
def parsePyFloat (s : String) : Option ℚ :=
  let neg := s.startsWith "-"
  let body := if neg then s.drop 1 else s
  let q? : Option ℚ :=
    match body.splitOn "." with
    | [a] => (a.toNat?).map (fun n => (n : ℚ))
    | [a, b] =>
      match a.toNat?, b.toNat? with
      | some n, some m => some ((n : ℚ) + (m : ℚ) / ((10 : ℚ) ^ b.length))
      | _, _ => none
    | _ => none
  q?.map (fun q => if neg then -q else q)

/-- Python float() applied to a fetched value, with floats kept exact as
rationals; None and containers raise. -/
def pyFloatOpt : PyVal → Option ℚ
  | .vFloat q => some q
  | .vInt n => some (n : ℚ)
  | .vBool b => some (if b then 1 else 0)
  | .vStr s => parsePyFloat s
  | _ => none

/-- Value tuple that upsert_hourly_ad_insights builds for one insight record
(MetaETL.py lines 885 to 914), in INSERT column order; snapshot_hour and the
conflict-time created_at are rendered from the run clock as strings. A
coercion failure yields none, which the try/except of the source turns into
skipping the record. -/
def prepareHourlyRow (hourStr nowTs : String) (i : Rec) : Option DbRow := do
  let clicks ← pyIntOpt (recGet i "clicks" (PyVal.vInt 0))
  let impressions ← pyIntOpt (recGet i "impressions" (PyVal.vInt 0))
  let spend ← pyFloatOpt (recGet i "spend" (PyVal.vInt 0))
  let reach ← pyIntOpt (recGet i "reach" (PyVal.vInt 0))
  let ctr ← pyFloatOpt (recGet i "ctr" (PyVal.vInt 0))
  let cpp ← pyFloatOpt (recGet i "cpp" (PyVal.vInt 0))
  pure
    [ PyVal.vStr hourStr
    , recGet i "ad_id" PyVal.vNone
    , recGet i "adset_id" PyVal.vNone
    , recGet i "campaign_id" PyVal.vNone
    , recGet i "account_id" PyVal.vNone
    , recGet i "date_start" PyVal.vNone
    , recGet i "date_stop" PyVal.vNone
    , PyVal.vInt clicks
    , PyVal.vInt impressions
    , PyVal.vFloat spend
    , PyVal.vInt reach
    , recGet i "page_engagement" (PyVal.vInt 0)
    , recGet i "post_engagement" (PyVal.vInt 0)
    , recGet i "video_view" (PyVal.vInt 0)
    , recGet i "landing_page_view" (PyVal.vInt 0)
    , recGet i "purchase" (PyVal.vInt 0)
    , recGet i "add_to_cart" (PyVal.vInt 0)
    , recGet i "link_click" (PyVal.vInt 0)
    , recGet i "post_reaction" (PyVal.vInt 0)
    , recGet i "outbound_click" (PyVal.vInt 0)
    , recGet i "purchase_value" (PyVal.vFloat 0)
    , recGet i "view_content_value" (PyVal.vFloat 0)
    , recGet i "add_to_cart_value" (PyVal.vFloat 0)
    , PyVal.vFloat ctr
    , PyVal.vFloat cpp
    , recGet i "video_p25_watched" (PyVal.vInt 0)
    , recGet i "video_thruplay_watched" (PyVal.vInt 0)
    , PyVal.vStr nowTs ]

/-- Row-preparation loop of upsert_hourly_ad_insights (MetaETL.py lines 876
to 918): each insight gets snapshot_hour assigned, is validated against
AD_INSIGHTS_HOURLY_SNAPSHOT_SCHEMA, a record with a non-empty error report is
skipped with a warning, and the surviving records are projected into value
tuples; these are exactly the rows the bulk statement persists. -/
def upsert_hourly_ad_insights_values (parseOk : String → Bool)
    (hourStr nowTs : String) (insights : List Rec) : List DbRow :=
  insights.filterMap (fun i =>
    let i2 := recSet i "snapshot_hour" (PyVal.vStr hourStr)
    if (validate_schema parseOk i2 AD_INSIGHTS_HOURLY_SNAPSHOT_SCHEMA).isEmpty
    then prepareHourlyRow hourStr nowTs i2
    else none)

/-- Synthesized all-zero insight that main builds for an ad missing from the
fetched insights (MetaETL.py lines 1027 to 1054): campaign_id and account_id
are set to None, the date fields to the run date, every metric to zero. The
ad tuple positions are those of fetch_ads_batch: 0 is ad_id, 2 is adset_id. -/
def default_insight (ad : DbRow) (today_str : String) : Rec :=
  [ ("ad_id", ad.getD 0 PyVal.vNone)
  , ("adset_id", ad.getD 2 PyVal.vNone)
  , ("campaign_id", PyVal.vNone)
  , ("account_id", PyVal.vNone)
  , ("date_start", PyVal.vStr today_str)
  , ("date_stop", PyVal.vStr today_str)
  , ("clicks", PyVal.vInt 0)
  , ("impressions", PyVal.vInt 0)
  , ("spend", PyVal.vFloat 0)
  , ("reach", PyVal.vInt 0)
  , ("page_engagement", PyVal.vInt 0)
  , ("post_engagement", PyVal.vInt 0)
  , ("video_view", PyVal.vInt 0)
  , ("landing_page_view", PyVal.vInt 0)
  , ("purchase", PyVal.vInt 0)
  , ("add_to_cart", PyVal.vInt 0)
  , ("link_click", PyVal.vInt 0)
  , ("post_reaction", PyVal.vInt 0)
  , ("outbound_click", PyVal.vInt 0)
  , ("purchase_value", PyVal.vFloat 0)
  , ("view_content_value", PyVal.vFloat 0)
  , ("add_to_cart_value", PyVal.vFloat 0)
  , ("ctr", PyVal.vFloat 0)
  , ("cpp", PyVal.vFloat 0)
  , ("video_p25_watched", PyVal.vInt 0)
  , ("video_thruplay_watched", PyVal.vInt 0) ]

/-- First-occurrence deduplication of a list of Python values (the key set of
a Python dict built by iteration). -/
def dedupPyVals (l : List PyVal) : List PyVal :=
  l.foldl (fun acc x => if acc.any (fun y => PyVal.beq y x) then acc else acc ++ [x]) []

/-- Default-insight synthesis of the hourly step in main (MetaETL.py lines
1018 to 1055): every fetched ad id absent from the fetched insights batch gets
a synthesized all-zero record appended to the insights list; the ad lookup
dict keeps the last tuple per ad id. -/
def add_default_insights (ads : List DbRow) (insights : List Rec)
    (today_str : String) : List Rec :=
  let all_ad_ids := dedupPyVals (ads.map (fun a => a.getD 0 PyVal.vNone))
  let insight_ad_ids := insights.map (fun i => recGet i "ad_id" PyVal.vNone)
  let missing := all_ad_ids.filter
    (fun x => !(insight_ad_ids.any (fun y => PyVal.beq y x)))
  insights ++ missing.filterMap (fun mid =>
    (ads.reverse.find? (fun a => PyVal.beq (a.getD 0 PyVal.vNone) mid)).map
      (fun ad => default_insight ad today_str))

/-- Run hour of the concrete scenario (IST hour bucket in ISO rendering). -/
def scenarioHour : String := "2024-05-01T10:00:00+05:30"

/-- Run date of the concrete scenario. -/
def scenarioToday : String := "2024-05-01"

/-- Fetch timestamp of the concrete scenario. -/
def scenarioNow : String := "2024-05-01T10:02:03+05:30"

/-- An ad tuple in the shape of fetch_ads_batch (MetaETL.py lines 769 to
778): id, name, adset_id, targeting, insights, hour, fetched_at, raw_data. -/
def mkAdTuple (adId adsetId : String) : DbRow :=
  [ PyVal.vStr adId, PyVal.vStr ("ad " ++ adId), PyVal.vStr adsetId,
    PyVal.vNone, PyVal.vNone, PyVal.vStr scenarioHour, PyVal.vStr scenarioNow,
    PyVal.vNone ]

/-- Three fetched ads for the C1 scenario. -/
def scenarioAds : List DbRow :=
  [mkAdTuple "a1" "s1", mkAdTuple "a2" "s1", mkAdTuple "a3" "s2"]

/-- A fetched insight record for the C1 scenario, carrying every field the
snapshot schema requires. -/
def mkInsightRec (adId : String) (clicks : Int) : Rec :=
  [ ("ad_id", PyVal.vStr adId)
  , ("adset_id", PyVal.vStr "s1")
  , ("campaign_id", PyVal.vStr "c1")
  , ("account_id", PyVal.vStr "acc1")
  , ("date_start", PyVal.vStr scenarioToday)
  , ("date_stop", PyVal.vStr scenarioToday)
  , ("clicks", PyVal.vInt clicks)
  , ("impressions", PyVal.vInt 100)
  , ("spend", PyVal.vFloat 5)
  , ("reach", PyVal.vInt 80)
  , ("ctr", PyVal.vFloat 2)
  , ("cpp", PyVal.vFloat 1) ]

/-- Fetched insights of the C1 scenario: ads a1 and a2 have insight records,
ad a3 has none. -/
def scenarioInsights : List Rec :=
  [mkInsightRec "a1" 3, mkInsightRec "a2" 4]

/-- A persisted hourly-snapshot row in INSERT column order, with the given
adset_id dimension and the given value in all twenty metric columns. -/
def mkHourlyRow (adsetId : String) (metric : Int) : DbRow :=
  [ PyVal.vStr scenarioHour, PyVal.vStr "ad1", PyVal.vStr adsetId,
    PyVal.vStr "c1", PyVal.vStr "acc1", PyVal.vStr scenarioToday,
    PyVal.vStr scenarioToday ]
  ++ List.replicate 20 (PyVal.vInt metric)
  ++ [PyVal.vStr scenarioNow]

/-- An ad-set tuple in the 41-column shape of fetch_adsets_batch, with the
given id, name and campaign_id and empty optional payloads. -/
def mkAdsetTuple (adsetId nm cid : String) : DbRow :=
  [PyVal.vStr adsetId, PyVal.vStr nm, PyVal.vStr cid]
  ++ List.replicate 35 PyVal.vNone
  ++ [PyVal.vStr scenarioHour, PyVal.vStr scenarioNow, PyVal.vNone]

/-- An ad-creatives tuple in the 9-column shape of fetch_adcreatives_batch. -/
def mkCreativeTuple (creativeId nm : String) : DbRow :=
  [ PyVal.vStr creativeId, PyVal.vStr nm, PyVal.vNone, PyVal.vNone,
    PyVal.vNone, PyVal.vNone, PyVal.vStr scenarioHour, PyVal.vStr scenarioNow,
    PyVal.vNone ]

/-- An ad-set row whose parent campaign is persisted in the C6 scenario. -/
def c6GoodAdset : DbRow := mkAdsetTuple "as1" "n1" "c1"

/-- An ad-set row whose parent campaign is absent in the C6 scenario. -/
def c6BadAdset : DbRow := mkAdsetTuple "as2" "n2" "cX"

/-- First upstream page of the C7 scenario, carrying a continuation. -/
def c7FirstPage : ApiPage := { pageRows := [mkInsightRec "a1" 3], hasNext := true }

/-- Second and last upstream page of the C7 scenario. -/
def c7SecondPage : ApiPage := { pageRows := [mkInsightRec "a2" 4], hasNext := false }

/-- Request shape shared by fetch_campaigns, fetch_activity_history and
fetch_regionwise_insights (MetaETL.py lines 352 to 357, 407 to 412, 485 to
490): exactly one request, issued through the backoff wrapper, whose response
body is parsed into a page and whose data array is consumed without ever
consulting a continuation reference; a sentinel or raised outcome of the
wrapper yields no rows from this consumption. -/
def fetch_single_backoff_rows (f : Nat → ApiOutcome) (base : ℚ)
    (parsePage : String → ApiPage) : List Rec :=
  match (api_request_with_backoff f base).result with
  | .returned (some body) => (parsePage body).pageRows
  | _ => []

/-- Joining the per-entry lists of a mapped list ignores entries that the
predicate rejects whenever rejected entries are mapped to the empty list. -/
theorem flatten_map_filter_eq {α β : Type} (l : List α) (pred : α → Bool)
    (F : α → List β) (h : ∀ x ∈ l, pred x = false → F x = []) :
    ((l.filter pred).map F).flatten = (l.map F).flatten := by
  induction l with
  | nil => rfl
  | cons a as ih =>
    have hrest : ∀ x ∈ as, pred x = false → F x = [] := fun x hx => h x (by simp [hx])
    cases hpa : pred a with
    | true => simp [List.filter_cons, hpa, ih hrest]
    | false =>
      have : F a = [] := h a (by simp) hpa
      simp [List.filter_cons, hpa, ih hrest, this]

/-- Key membership is unchanged by dropping entries whose key the schema does
not know, provided the probed key is known to the schema. -/
theorem hasKey_filter_known (schema : Schema) (data : Rec) (k : String)
    (hk : (lookupField schema k).isSome) :
    hasKey (data.filter (fun p => (lookupField schema p.1).isSome)) k = hasKey data k := by
  induction data with
  | nil => rfl
  | cons d rest ih =>
    simp only [hasKey] at ih ⊢
    by_cases hdk : d.1 = k
    · have hpred : ((lookupField schema d.1).isSome : Bool) = true := by rw [hdk]; exact hk
      rw [List.filter_cons, if_pos hpred, List.any_cons, List.any_cons]
      have hbeq : (d.1 == k) = true := by simp [hdk]
      rw [hbeq, Bool.true_or, Bool.true_or]
    · have hbeq : (d.1 == k) = false := by simp [hdk]
      cases hknown : ((lookupField schema d.1).isSome : Bool) with
      | true =>
        rw [List.filter_cons, if_pos hknown, List.any_cons, List.any_cons, ih, hbeq]
      | false =>
        rw [List.filter_cons, if_neg (by simp [hknown]), ih, List.any_cons, hbeq,
          Bool.false_or]

/-- C10: a field present in the record whose name is not a key of the schema
contributes no error in any category: the validator output on a record equals
its output on the record restricted to schema-known fields, so unknown or
extra upstream fields pass validation silently. -/
theorem C10_unknown_fields_pass_silently (parseOk : String → Bool)
    (schema : Schema) (data : Rec) :
    validate_schema parseOk data schema
      = validate_schema parseOk
          (data.filter (fun p => (lookupField schema p.1).isSome)) schema := by
  unfold validate_schema
  have hmem : ∀ p ∈ schema, (lookupField schema p.1).isSome := by
    intro p hp
    have : schema.find? (fun q => q.1 == p.1) ≠ none := by
      intro hnone
      have := List.find?_eq_none.mp hnone p hp
      simp at this
    unfold lookupField
    cases hfind : schema.find? (fun q => q.1 == p.1) with
    | none => exact absurd hfind this
    | some q => simp
  have hreq :
      (schema.filter (fun p => p.2.required && !(hasKey data p.1)))
        = (schema.filter (fun p => p.2.required &&
            !(hasKey (data.filter (fun q => (lookupField schema q.1).isSome)) p.1))) := by
    apply List.filter_congr
    intro p hp
    rw [hasKey_filter_known schema data p.1 (hmem p hp)]
  have hdrop : ∀ (F : String × PyVal → List String),
      (∀ x ∈ data, ((lookupField schema x.1).isSome : Bool) = false → F x = []) →
      ((data.filter (fun p => (lookupField schema p.1).isSome)).map F).flatten
        = (data.map F).flatten := by
    intro F hF
    exact flatten_map_filter_eq data _ F hF
  congr 1
  · rw [hreq]
  · rw [hdrop]
    intro x _ hx
    simp only [Option.isSome] at hx
    cases hfind : lookupField schema x.1 with
    | none => simp
    | some fs => rw [hfind] at hx; simp at hx
  · rw [hdrop]
    intro x _ hx
    cases hfind : lookupField schema x.1 with
    | none => simp
    | some fs => rw [hfind] at hx; simp at hx

/-- Normalizer core maps a trailing Z to +00:00, for every prefix. -/
theorem normalizeDTCore_trailing_z (pre : List Char) :
    normalizeDTCore (pre ++ ['Z']) = pre ++ "+00:00".toList := by
  unfold normalizeDTCore
  rw [List.getLast?_concat]
  simp

/-- Normalizer core inserts a colon into a trailing no-colon numeric offset,
for every newline-free prefix and ASCII digits. -/
theorem normalizeDTCore_trailing_offset (pre : List Char) (sign h1 h2 m1 m2 : Char)
    (hs : sign = '+' ∨ sign = '-')
    (hd : (h1.isDigit && h2.isDigit && m1.isDigit && m2.isDigit) = true)
    (hn : pre.contains '\n' = false) :
    normalizeDTCore (pre ++ [sign, h1, h2, m1, m2])
      = pre ++ [sign, h1, h2, ':', m1, m2] := by
  have hds := hd
  simp only [Bool.and_eq_true] at hds
  have hm2 : m2 ≠ 'Z' := by
    intro h
    rw [h] at hds
    simp at hds
  have hlast : (pre ++ [sign, h1, h2, m1, m2]).getLast? = some m2 := by
    have : pre ++ [sign, h1, h2, m1, m2] = (pre ++ [sign, h1, h2, m1]) ++ [m2] := by simp
    rw [this, List.getLast?_concat]
  unfold normalizeDTCore
  rw [hlast]
  have hrev : (pre ++ [sign, h1, h2, m1, m2]).reverse
      = m2 :: m1 :: h2 :: h1 :: sign :: pre.reverse := by simp
  rw [if_neg (by simp [hm2])]
  rw [hrev]
  have hsign : (sign == '+' || sign == '-') = true := by
    cases hs with
    | inl h => simp [h]
    | inr h => simp [h]
  have hmem : '\n' ∉ pre := by simpa using hn
  simp [hsign, hds, hmem]

/-- Merging overwrites everything when every column position is either in the
update set or already carries the same value in both rows. -/
theorem mergeRow_eq_new (e : EntityUpsert) (r1 r2 : DbRow)
    (h2 : r2.length = e.cols.length)
    (hpt : ∀ j, j < e.cols.length →
      e.cols.getD j "" ∈ e.updateCols ∨ r1.getD j PyVal.vNone = r2.getD j PyVal.vNone) :
    mergeRow e r1 r2 = r2 := by
  apply List.ext_getElem
  · simp [mergeRow, h2]
  · intro i hi1 hi2
    have hilt : i < e.cols.length := by simpa [mergeRow] using hi1
    have hval : (mergeRow e r1 r2)[i] =
        (if e.cols.getD i "" ∈ e.updateCols then r2.getD i PyVal.vNone
         else r1.getD i PyVal.vNone) := by
      simp [mergeRow]
    rw [hval]
    have hgetD : r2.getD i PyVal.vNone = r2[i] := by
      rw [List.getD_eq_getElem]
    cases hpt i hilt with
    | inl h => rw [if_pos h, hgetD]
    | inr h => rw [h, ite_self, hgetD]

/-- Upserting a fresh row into an empty store appends it. -/
theorem upsertRow_empty (e : EntityUpsert) (r : DbRow) : upsertRow e [] r = [r] := by
  simp [upsertRow]

/-- Upserting a second row with the same natural key over a singleton store
replaces the stored row with the merge of the two. -/
theorem upsertRow_singleton_same_key (e : EntityUpsert) (r1 r2 : DbRow)
    (hk : keyOf e r1 = keyOf e r2) :
    upsertRow e [r1] r2 = [mergeRow e r1 r2] := by
  have hbeq : PyVal.beqList (keyOf e r1) (keyOf e r2) = true := by
    rw [hk]; exact PyVal.beqList_self _
  simp [upsertRow, hbeq]

/-- Every element surviving a filterMap satisfies a predicate as soon as the
mapping satisfies it pointwise in the Option. -/
theorem all_of_filterMap {α β : Type} (g : α → Option β) (p : β → Bool)
    (l : List α) (h : ∀ a ∈ l, Option.all p (g a) = true) :
    (l.filterMap g).all p = true := by
  induction l with
  | nil => rfl
  | cons a as ih =>
    rw [List.filterMap_cons]
    have hrest := ih (fun x hx => h x (by simp [hx]))
    cases hg : g a with
    | none => exact hrest
    | some b =>
      have hb := h a (by simp)
      rw [hg] at hb
      simp only [Option.all] at hb
      rw [List.all_cons, hb, hrest]
      rfl

/-- C8 (amended): the normalizers map a trailing Z to +00:00 for every input,
and insert a colon into a trailing sign-hhmm offset (ASCII digits) whenever no
newline occurs before the offset, the regex dot being unable to cross a
newline; the two normalizers are the same function, and the two spec examples
evaluate as stated. -/
theorem C8_datetime_normalization_amended :
    normalize_datetime "2024-05-01T10:00:00Z" = "2024-05-01T10:00:00+00:00"
  ∧ normalize_datetime "2024-05-01T10:00:00+0530" = "2024-05-01T10:00:00+05:30"
  ∧ (∀ s : String, normalize_activity_datetime s = normalize_datetime s)
  ∧ (∀ pre : List Char, normalizeDTCore (pre ++ ['Z']) = pre ++ "+00:00".toList)
  ∧ (∀ (pre : List Char) (sign h1 h2 m1 m2 : Char),
      sign = '+' ∨ sign = '-' →
      (h1.isDigit && h2.isDigit && m1.isDigit && m2.isDigit) = true →
      pre.contains '\n' = false →
      normalizeDTCore (pre ++ [sign, h1, h2, m1, m2])
        = pre ++ [sign, h1, h2, ':', m1, m2]) :=
  ⟨by decide, by decide, fun s => rfl, normalizeDTCore_trailing_z,
   normalizeDTCore_trailing_offset⟩

/-- C8 witness: the offset rule of the amended theorem applied at the concrete
example input. -/
theorem C8_datetime_normalization_amended_witness :
    normalizeDTCore ("2024-05-01T10:00:00".toList ++ ['+', '0', '5', '3', '0'])
      = "2024-05-01T10:00:00".toList ++ ['+', '0', '5', ':', '3', '0'] :=
  C8_datetime_normalization_amended.2.2.2.2 "2024-05-01T10:00:00".toList
    '+' '0' '5' '3' '0' (Or.inl rfl) (by decide) (by decide)

/-- C8 counterexample: a string ending in a no-colon numeric offset with a
newline earlier in the string is returned unchanged, because the dot of the
offset regex does not match a newline, so the claim quantified over every
string fails on the code. -/
theorem C8_newline_before_offset_unchanged :
    normalize_datetime "a\nb+0530" = "a\nb+0530"
  ∧ normalize_datetime "a\nb+0530" ≠ "a\nb+05:30" := by
  constructor
  · decide
  · decide

/-- C9: each generated ratio column of the hourly snapshot table equals its
defining ratio of the stored metrics whenever the denominator is positive and
equals 0 whenever the denominator is not positive; in particular the return on
ad spend is 0 for every row with zero spend, regardless of purchase value. -/
theorem C9_generated_ratio_columns
    (clicks impressions spend reach page_engagement video_view
     landing_page_view purchase purchase_value : ℚ) :
    ((spend > 0 → roasGen spend purchase_value = purchase_value / spend)
      ∧ (spend ≤ 0 → roasGen spend purchase_value = 0))
  ∧ ((impressions > 0 → calcCtrGen clicks impressions = clicks / impressions * 100)
      ∧ (impressions ≤ 0 → calcCtrGen clicks impressions = 0))
  ∧ ((purchase > 0 → calcCppGen spend purchase = spend / purchase)
      ∧ (purchase ≤ 0 → calcCppGen spend purchase = 0))
  ∧ ((reach > 0 → calcCprGen spend reach = spend / reach)
      ∧ (reach ≤ 0 → calcCprGen spend reach = 0))
  ∧ ((impressions > 0 →
        hookRateGen page_engagement impressions = page_engagement / impressions * 100)
      ∧ (impressions ≤ 0 → hookRateGen page_engagement impressions = 0))
  ∧ ((page_engagement > 0 →
        holdRateGen video_view page_engagement = video_view / page_engagement * 100)
      ∧ (page_engagement ≤ 0 → holdRateGen video_view page_engagement = 0))
  ∧ ((landing_page_view > 0 →
        conversionRateGen purchase landing_page_view
          = purchase / landing_page_view * 100)
      ∧ (landing_page_view ≤ 0 → conversionRateGen purchase landing_page_view = 0))
  ∧ roasGen 0 purchase_value = 0 :=
  ⟨⟨fun h => if_pos h, fun h => if_neg (not_lt.mpr h)⟩,
   ⟨fun h => if_pos h, fun h => if_neg (not_lt.mpr h)⟩,
   ⟨fun h => if_pos h, fun h => if_neg (not_lt.mpr h)⟩,
   ⟨fun h => if_pos h, fun h => if_neg (not_lt.mpr h)⟩,
   ⟨fun h => if_pos h, fun h => if_neg (not_lt.mpr h)⟩,
   ⟨fun h => if_pos h, fun h => if_neg (not_lt.mpr h)⟩,
   ⟨fun h => if_pos h, fun h => if_neg (not_lt.mpr h)⟩,
   if_neg (lt_irrefl 0)⟩

/-- C9 witness: the ratio theorem applied at concrete metric values, including
the zero-spend case with a non-zero purchase value. -/
theorem C9_generated_ratio_columns_witness :
    roasGen 2 6 = 3 ∧ roasGen 0 7 = 0 ∧ calcCtrGen 1 4 = 25 := by
  refine ⟨?_, ?_, ?_⟩
  · have h := (C9_generated_ratio_columns 1 4 2 0 0 0 0 0 6).1.1 (by norm_num)
    rw [h]; norm_num
  · exact (C9_generated_ratio_columns 1 4 0 0 0 0 0 0 7).1.2 (by norm_num)
  · have h := (C9_generated_ratio_columns 1 4 2 0 0 0 0 0 6).2.1.1 (by norm_num)
    rw [h]; norm_num

/-- C5: through the backoff wrapper, five consecutive rate-limit responses
(upstream code 80004) give exactly five attempts with doubling delays starting
from the configured base and then the no-result sentinel is returned rather
than raised; any other error on the first attempt propagates immediately with
no sleep; the five delays strictly increase for a positive base. -/
theorem C5_backoff_contract (f : Nat → ApiOutcome) (base : ℚ) :
    ((∀ i, i < 5 → f i = .httpError (some 80004)) →
      api_request_with_backoff f base
        = ⟨.returned none, [base, 2 * base, 4 * base, 8 * base, 16 * base]⟩)
  ∧ (∀ code, f 0 = .httpError code → code ≠ some 80004 →
      api_request_with_backoff f base = ⟨.raised code, []⟩)
  ∧ (0 < base →
      List.Chain' (fun a b => a < b)
        [base, 2 * base, 4 * base, 8 * base, 16 * base]) := by
  refine ⟨?_, ?_, ?_⟩
  · intro h
    have h0 := h 0 (by norm_num)
    have h1 := h 1 (by norm_num)
    have h2 := h 2 (by norm_num)
    have h3 := h 3 (by norm_num)
    have h4 := h 4 (by norm_num)
    simp only [api_request_with_backoff, backoffLoop, h0, h1, h2, h3, h4]
    norm_num
    ring_nf
    norm_num
  · intro code hf hc
    have hbeq : (code == some 80004) = false := by
      simp [hc]
    simp [api_request_with_backoff, backoffLoop, hf, hbeq]
  · intro hb
    simp only [List.chain'_cons, List.chain'_singleton, and_true]
    refine ⟨by linarith, by linarith, by linarith, by linarith⟩

/-- C5 witness: the backoff contract applied to a request that always rate
limits and to a request that fails with a different upstream code. -/
theorem C5_backoff_contract_witness :
    api_request_with_backoff (fun _ => ApiOutcome.httpError (some 80004)) 1
      = ⟨.returned none, [1, 2, 4, 8, 16]⟩
  ∧ api_request_with_backoff (fun _ => ApiOutcome.httpError (some 17)) 1
      = ⟨.raised (some 17), []⟩ := by
  constructor
  · have h := (C5_backoff_contract (fun _ => ApiOutcome.httpError (some 80004)) 1).1
      (fun i _ => rfl)
    rw [h]
    norm_num
  · exact (C5_backoff_contract (fun _ => ApiOutcome.httpError (some 17)) 1).2.1
      (some 17) rfl (by decide)

/-- C7 counterexample: when the upstream serves two pages and the first
carries a continuation reference, fetch_ad_insights returns only the first
page and differs from the accumulate-all-pages behavior the claim ascribes to
every extractor, so the claim fails on the ad-insights extractor. -/
theorem C7_ad_insights_ignores_continuation :
    fetch_ad_insights_rows [c7FirstPage, c7SecondPage] = [mkInsightRec "a1" 3]
  ∧ fetchAllPagesSpec [c7FirstPage, c7SecondPage]
      = [mkInsightRec "a1" 3, mkInsightRec "a2" 4]
  ∧ fetch_ad_insights_rows [c7FirstPage, c7SecondPage]
      ≠ fetchAllPagesSpec [c7FirstPage, c7SecondPage] := by
  refine ⟨rfl, rfl, ?_⟩
  intro h
  have hlen := congrArg List.length h
  have : (1 : Nat) = 2 := hlen
  simp at this

/-- C7 (amended): the paginating batch extractors (ad creatives, ad sets,
ads) accumulate the rows of every page, each page response obtained through
the backoff wrapper, until no continuation reference remains; the campaigns,
activity-history and regionwise extractors issue a single backoff-wrapped
request and consume exactly that one response page, never following a
continuation; the ad-insights extractor issues a single direct request and
consumes only its first page. -/
theorem C7_pagination_amended :
    (∀ ps : List ApiPage,
      (∀ p ∈ ps.dropLast, p.hasNext = true) →
      (∀ p, ps.getLast? = some p → p.hasNext = false) →
      fetchPagesLoop (ps.map some) = (ps.map ApiPage.pageRows).flatten)
  ∧ (∀ (f : Nat → ApiOutcome) (base : ℚ) (parsePage : String → ApiPage)
        (body : String),
      (api_request_with_backoff f base).result = .returned (some body) →
      fetch_single_backoff_rows f base parsePage = (parsePage body).pageRows)
  ∧ (∀ (p : ApiPage) (rest : List ApiPage),
      fetch_ad_insights_rows (p :: rest) = p.pageRows) := by
  refine ⟨?_, ?_, ?_⟩
  · intro ps
    induction ps with
    | nil => intro _ _; rfl
    | cons p rest ih =>
      intro hdrop hlast
      cases rest with
      | nil =>
        have hp : p.hasNext = false := hlast p rfl
        simp [fetchPagesLoop, hp]
      | cons q rs =>
        have hp : p.hasNext = true := by
          apply hdrop
          rw [List.dropLast_cons₂]
          exact List.mem_cons_self p _
        have hrest := ih
          (fun x hx => hdrop x (by rw [List.dropLast_cons₂]; exact List.mem_cons_of_mem p hx))
          (fun x hx => hlast x (by rw [List.getLast?_cons_cons]; exact hx))
        rw [show fetchPagesLoop (List.map some (p :: q :: rs))
            = p.pageRows
              ++ (if p.hasNext then fetchPagesLoop (List.map some (q :: rs)) else [])
            from rfl]
        rw [hp, if_pos rfl, hrest]
        simp
  · intro f base parsePage body hres
    unfold fetch_single_backoff_rows
    rw [hres]
  · intro p rest
    rfl

/-- C7 witness: the pagination rule of the amended theorem applied to the
concrete two-page upstream, and the single-request rule applied to a request
that succeeds at once with a page carrying a continuation reference. -/
theorem C7_pagination_amended_witness :
    fetchPagesLoop [some c7FirstPage, some c7SecondPage]
      = [mkInsightRec "a1" 3, mkInsightRec "a2" 4]
  ∧ fetch_single_backoff_rows (fun _ => ApiOutcome.ok "page") 1
      (fun _ => c7FirstPage) = [mkInsightRec "a1" 3] := by
  constructor
  · have h := C7_pagination_amended.1 [c7FirstPage, c7SecondPage]
      (by intro x hx; simp at hx; subst hx; rfl)
      (by intro x hx; simp at hx; subst hx; rfl)
    rw [show ([c7FirstPage, c7SecondPage].map some)
        = [some c7FirstPage, some c7SecondPage] from rfl] at h
    rw [h]
    rfl
  · have h := C7_pagination_amended.2.1 (fun _ => ApiOutcome.ok "page") 1
      (fun _ => c7FirstPage) "page" rfl
    rw [h]
    rfl

/-- C6: the Consistency Filter keeps exactly the ad-set rows whose campaign_id
is among the persisted campaign keys, forwarding them unchanged as a sublist
in original order, and drops exactly the rows whose parent campaign is absent,
so no row reaching the ad-set upsert references an unknown campaign. -/
theorem C6_consistency_filter_partitions (adsets : List DbRow)
    (existing : List String) :
    filter_adsets_with_existing_campaigns adsets existing
        = adsets.filter (campaignKnown existing)
  ∧ (filter_adsets_with_existing_campaigns adsets existing).Sublist adsets
  ∧ (∀ a, a ∈ filter_adsets_with_existing_campaigns adsets existing ↔
        a ∈ adsets ∧ campaignKnown existing a = true)
  ∧ missing_adsets adsets existing
      = adsets.filter (fun a => !(campaignKnown existing a))
  ∧ (∀ a, a ∈ missing_adsets adsets existing ↔
        a ∈ adsets ∧ campaignKnown existing a = false) := by
  have h1 : filter_adsets_with_existing_campaigns adsets existing
      = adsets.filter (campaignKnown existing) := by
    cases adsets with
    | nil => rfl
    | cons x xs => simp [filter_adsets_with_existing_campaigns]
  have h4 : missing_adsets adsets existing
      = adsets.filter (fun a => !(campaignKnown existing a)) := by
    cases adsets with
    | nil => rfl
    | cons x xs => simp [missing_adsets]
  refine ⟨h1, ?_, ?_, h4, ?_⟩
  · rw [h1]; exact List.filter_sublist adsets
  · intro a; rw [h1, List.mem_filter]
  · intro a; rw [h4, List.mem_filter]; simp

/-- C6 witness: the partition theorem applied to a two-row batch where only
one row has a persisted parent campaign. -/
theorem C6_consistency_filter_partitions_witness :
    filter_adsets_with_existing_campaigns [c6GoodAdset, c6BadAdset] ["c1"]
      = [c6GoodAdset]
  ∧ missing_adsets [c6GoodAdset, c6BadAdset] ["c1"] = [c6BadAdset] := by
  have h := C6_consistency_filter_partitions [c6GoodAdset, c6BadAdset] ["c1"]
  constructor
  · rw [h.1]; rfl
  · rw [h.2.2.2.1]; rfl

/-- C4: a bulk write is all-or-nothing within its step: when the atomic bulk
statement fails, the step leaves the committed store unchanged (no partial
subset of the batch becomes visible) and is marked failed; when it succeeds,
the whole batch is committed and the step completes. -/
theorem C4_bulk_write_all_or_nothing {ρ σ : Type}
    (insertRow : σ → ρ → Except String σ) (store : σ) (rows : List ρ) :
    (∀ e, executeValuesAtomic insertRow store rows = .error e →
        runUpsertStep insertRow store rows = (store, .failed e))
  ∧ (∀ s2, executeValuesAtomic insertRow store rows = .ok s2 →
        runUpsertStep insertRow store rows = (s2, .completed)) := by
  constructor
  · intro e he
    cases rows with
    | nil => exact Except.noConfusion he
    | cons r rs => simp [runUpsertStep, he]
  · intro s2 hs
    cases rows with
    | nil =>
      have hss : store = s2 := Except.ok.inj hs
      simp [runUpsertStep, hss]
    | cons r rs => simp [runUpsertStep, hs]

/-- C4 witness: a batch whose second row violates a constraint commits nothing
even though the first row was processed, and the step is marked failed. -/
theorem C4_bulk_write_all_or_nothing_witness :
    runUpsertStep
      (fun (s : List Nat) (r : Nat) =>
        if r == 2 then Except.error "constraint" else Except.ok (s ++ [r]))
      [] [1, 2]
      = ([], StepStatus.failed "constraint") :=
  (C4_bulk_write_all_or_nothing
    (fun (s : List Nat) (r : Nat) =>
      if r == 2 then Except.error "constraint" else Except.ok (s ++ [r]))
    [] [1, 2]).1 "constraint" rfl

/-- C3 counterexample: the hourly-snapshot upsert assigns the creation
timestamp created_at on conflict (created_at=NOW() in its DO UPDATE SET
clause), so the claim that every entity update set excludes the creation
timestamp fails on the code. -/
theorem C3_hourly_update_set_includes_created_at :
    updateSetExcludesKeysAndCreation hourlyInsightsUpsert = false
  ∧ hourlyInsightsUpsert.updateCols.contains "created_at" = true
  ∧ allEntityUpserts.all updateSetExcludesKeysAndCreation = false :=
  ⟨rfl, rfl, rfl⟩

/-- C3 (amended): every entity update set excludes that entity natural-key
columns; the campaign upsert keeps created_at write-once while updating
updated_at; the hourly-snapshot upsert however overwrites created_at with the
conflict time on every conflict, and its update set also omits the mutable
dimension columns adset_id, campaign_id and account_id. -/
theorem C3_update_sets_exclude_keys :
    allEntityUpserts.all
        (fun e => e.updateCols.all (fun c => !(e.conflictCols.contains c))) = true
  ∧ dimCampaignUpsert.updateCols.contains "created_at" = false
  ∧ dimCampaignUpsert.updateCols.contains "updated_at" = true
  ∧ hourlyInsightsUpsert.updateCols.contains "created_at" = true
  ∧ hourlyInsightsUpsert.updateCols.contains "adset_id" = false
  ∧ hourlyInsightsUpsert.updateCols.contains "campaign_id" = false
  ∧ hourlyInsightsUpsert.updateCols.contains "account_id" = false :=
  ⟨rfl, rfl, rfl, rfl, rfl, rfl, rfl⟩

/-- C2 counterexample: reconciling the same hourly-snapshot natural key twice
with a different adset_id the second time leaves exactly one row, but that row
keeps the first adset_id, because the DO UPDATE SET clause of the hourly
upsert does not assign adset_id; so the persisted row does not hold the second
set of values and the claim quantified over every entity type fails. -/
theorem C2_hourly_upsert_keeps_first_dimensions :
    upsertRow hourlyInsightsUpsert
        (upsertRow hourlyInsightsUpsert [] (mkHourlyRow "s1" 0)) (mkHourlyRow "s2" 7)
      ≠ [mkHourlyRow "s2" 7]
  ∧ (upsertRow hourlyInsightsUpsert
        (upsertRow hourlyInsightsUpsert [] (mkHourlyRow "s1" 0))
        (mkHourlyRow "s2" 7)).length = 1
  ∧ PyVal.beq
      (rowVal hourlyInsightsUpsert
        ((upsertRow hourlyInsightsUpsert
            (upsertRow hourlyInsightsUpsert [] (mkHourlyRow "s1" 0))
            (mkHourlyRow "s2" 7)).getD 0 []) "adset_id")
      (PyVal.vStr "s1") = true
  ∧ PyVal.beq (rowVal hourlyInsightsUpsert (mkHourlyRow "s2" 7) "adset_id")
      (PyVal.vStr "s1") = false := by
  refine ⟨?_, rfl, rfl, rfl⟩
  intro h
  have hb : (true : Bool) = false := by
    have hc := congrArg (fun l : List DbRow =>
      PyVal.beq (rowVal hourlyInsightsUpsert (l.getD 0 []) "adset_id")
        (PyVal.vStr "s1")) h
    exact hc
  cases hb

/-- C2 (amended): for the hour-keyed metadata entities (ad sets, ad creatives
and ads, whose update sets cover every non-key column), reconciling the same
natural key twice yields exactly one persisted row holding the full second set
of values; the hourly-snapshot upsert instead keeps its first-written
adset_id, campaign_id and account_id. -/
theorem C2_upsert_twice_converges :
    (∀ r1 r2 : DbRow, r1.length = 41 → r2.length = 41 →
      keyOf adsetsUpsert r1 = keyOf adsetsUpsert r2 →
      upsertRow adsetsUpsert (upsertRow adsetsUpsert [] r1) r2 = [r2])
  ∧ (∀ r1 r2 : DbRow, r1.length = 9 → r2.length = 9 →
      keyOf adCreativesUpsert r1 = keyOf adCreativesUpsert r2 →
      upsertRow adCreativesUpsert (upsertRow adCreativesUpsert [] r1) r2 = [r2])
  ∧ (∀ r1 r2 : DbRow, r1.length = 8 → r2.length = 8 →
      keyOf adsUpsert r1 = keyOf adsUpsert r2 →
      upsertRow adsUpsert (upsertRow adsUpsert [] r1) r2 = [r2]) := by
  refine ⟨?_, ?_, ?_⟩
  · intro r1 r2 h1 h2 hk
    rw [upsertRow_empty, upsertRow_singleton_same_key _ _ _ hk]
    have hmerge : mergeRow adsetsUpsert r1 r2 = r2 := by
      apply mergeRow_eq_new
      · rw [h2]; rfl
      · intro j hj
        have hcl : adsetsUpsert.cols.length = 41 := rfl
        rw [hcl] at hj
        have hfact : ∀ m : Fin 41,
            adsetsUpsert.cols.getD m.val "" ∈ adsetsUpsert.updateCols
              ∨ m.val = 0 ∨ m.val = 38 := by decide
        rcases hfact ⟨j, hj⟩ with hcase | hcase | hcase
        · exact Or.inl hcase
        · simp only at hcase
          subst hcase
          have hk0 : (keyOf adsetsUpsert r1).getD 0 PyVal.vNone
              = (keyOf adsetsUpsert r2).getD 0 PyVal.vNone :=
            congrArg (fun l : List PyVal => l.getD 0 PyVal.vNone) hk
          exact Or.inr hk0
        · simp only at hcase
          subst hcase
          have hk1 : (keyOf adsetsUpsert r1).getD 1 PyVal.vNone
              = (keyOf adsetsUpsert r2).getD 1 PyVal.vNone :=
            congrArg (fun l : List PyVal => l.getD 1 PyVal.vNone) hk
          exact Or.inr hk1
    rw [hmerge]
  · intro r1 r2 h1 h2 hk
    rw [upsertRow_empty, upsertRow_singleton_same_key _ _ _ hk]
    have hmerge : mergeRow adCreativesUpsert r1 r2 = r2 := by
      apply mergeRow_eq_new
      · rw [h2]; rfl
      · intro j hj
        have hcl : adCreativesUpsert.cols.length = 9 := rfl
        rw [hcl] at hj
        have hfact : ∀ m : Fin 9,
            adCreativesUpsert.cols.getD m.val "" ∈ adCreativesUpsert.updateCols
              ∨ m.val = 0 ∨ m.val = 6 := by decide
        rcases hfact ⟨j, hj⟩ with hcase | hcase | hcase
        · exact Or.inl hcase
        · simp only at hcase
          subst hcase
          have hk0 : (keyOf adCreativesUpsert r1).getD 0 PyVal.vNone
              = (keyOf adCreativesUpsert r2).getD 0 PyVal.vNone :=
            congrArg (fun l : List PyVal => l.getD 0 PyVal.vNone) hk
          exact Or.inr hk0
        · simp only at hcase
          subst hcase
          have hk1 : (keyOf adCreativesUpsert r1).getD 1 PyVal.vNone
              = (keyOf adCreativesUpsert r2).getD 1 PyVal.vNone :=
            congrArg (fun l : List PyVal => l.getD 1 PyVal.vNone) hk
          exact Or.inr hk1
    rw [hmerge]
  · intro r1 r2 h1 h2 hk
    rw [upsertRow_empty, upsertRow_singleton_same_key _ _ _ hk]
    have hmerge : mergeRow adsUpsert r1 r2 = r2 := by
      apply mergeRow_eq_new
      · rw [h2]; rfl
      · intro j hj
        have hcl : adsUpsert.cols.length = 8 := rfl
        rw [hcl] at hj
        have hfact : ∀ m : Fin 8,
            adsUpsert.cols.getD m.val "" ∈ adsUpsert.updateCols
              ∨ m.val = 0 ∨ m.val = 5 := by decide
        rcases hfact ⟨j, hj⟩ with hcase | hcase | hcase
        · exact Or.inl hcase
        · simp only at hcase
          subst hcase
          have hk0 : (keyOf adsUpsert r1).getD 0 PyVal.vNone
              = (keyOf adsUpsert r2).getD 0 PyVal.vNone :=
            congrArg (fun l : List PyVal => l.getD 0 PyVal.vNone) hk
          exact Or.inr hk0
        · simp only at hcase
          subst hcase
          have hk1 : (keyOf adsUpsert r1).getD 1 PyVal.vNone
              = (keyOf adsUpsert r2).getD 1 PyVal.vNone :=
            congrArg (fun l : List PyVal => l.getD 1 PyVal.vNone) hk
          exact Or.inr hk1
    rw [hmerge]

/-- C2 witness: the convergence theorem applied to concrete ad-set,
ad-creative and ad rows reconciled twice with different field values. -/
theorem C2_upsert_twice_converges_witness :
    upsertRow adsetsUpsert
        (upsertRow adsetsUpsert [] (mkAdsetTuple "as1" "n1" "c1"))
        (mkAdsetTuple "as1" "n2" "c1")
      = [mkAdsetTuple "as1" "n2" "c1"]
  ∧ upsertRow adCreativesUpsert
        (upsertRow adCreativesUpsert [] (mkCreativeTuple "cr1" "m1"))
        (mkCreativeTuple "cr1" "m2")
      = [mkCreativeTuple "cr1" "m2"]
  ∧ upsertRow adsUpsert
        (upsertRow adsUpsert [] (mkAdTuple "a9" "s1"))
        (mkAdTuple "a9" "s2")
      = [mkAdTuple "a9" "s2"] :=
  ⟨C2_upsert_twice_converges.1 _ _ rfl rfl rfl,
   C2_upsert_twice_converges.2.1 _ _ rfl rfl rfl,
   C2_upsert_twice_converges.2.2 _ _ rfl rfl rfl⟩

/-- C1: the hourly step of main synthesizes an all-zero insight for every
fetched ad id missing from the fetched insights batch, but that synthesized
record carries campaign_id None and account_id None, so it fails the
non-nullable string checks of the snapshot schema inside
upsert_hourly_ad_insights and is skipped, whatever the ISO parser accepts: in
the three-ad scenario with two fetched insights no prepared row ever carries
the missing ad id and only two rows are persisted, not the three the claim
requires. -/
theorem C1_synthesized_rows_never_persisted :
    (∀ parseOk : String → Bool,
      ((upsert_hourly_ad_insights_values parseOk scenarioHour scenarioNow
          (add_default_insights scenarioAds scenarioInsights scenarioToday)).all
        (fun r => !(PyVal.beq (r.getD 1 PyVal.vNone) (PyVal.vStr "a3")))) = true)
  ∧ (upsert_hourly_ad_insights_values isoParseOk scenarioHour scenarioNow
        (add_default_insights scenarioAds scenarioInsights scenarioToday)).length = 2
  ∧ (validate_schema isoParseOk
        (recSet (default_insight (mkAdTuple "a3" "s2") scenarioToday)
          "snapshot_hour" (PyVal.vStr scenarioHour))
        AD_INSIGHTS_HOURLY_SNAPSHOT_SCHEMA).typeErrs
      = ["Field campaign_id should be a string, got NoneType",
         "Field account_id should be a string, got NoneType"] := by
  refine ⟨?_, rfl, rfl⟩
  intro parseOk
  have hsyn : add_default_insights scenarioAds scenarioInsights scenarioToday
      = [mkInsightRec "a1" 3, mkInsightRec "a2" 4,
         default_insight (mkAdTuple "a3" "s2") scenarioToday] := rfl
  unfold upsert_hourly_ad_insights_values
  rw [hsyn]
  apply all_of_filterMap
  intro a ha
  simp only [List.mem_cons, List.not_mem_nil, or_false] at ha
  rcases ha with rfl | rfl | rfl
  · show Option.all _
      (if (validate_schema parseOk
            (recSet (mkInsightRec "a1" 3) "snapshot_hour" (PyVal.vStr scenarioHour))
            AD_INSIGHTS_HOURLY_SNAPSHOT_SCHEMA).isEmpty
       then prepareHourlyRow scenarioHour scenarioNow
            (recSet (mkInsightRec "a1" 3) "snapshot_hour" (PyVal.vStr scenarioHour))
       else none) = true
    cases hc : (validate_schema parseOk
        (recSet (mkInsightRec "a1" 3) "snapshot_hour" (PyVal.vStr scenarioHour))
        AD_INSIGHTS_HOURLY_SNAPSHOT_SCHEMA).isEmpty <;> rfl
  · show Option.all _
      (if (validate_schema parseOk
            (recSet (mkInsightRec "a2" 4) "snapshot_hour" (PyVal.vStr scenarioHour))
            AD_INSIGHTS_HOURLY_SNAPSHOT_SCHEMA).isEmpty
       then prepareHourlyRow scenarioHour scenarioNow
            (recSet (mkInsightRec "a2" 4) "snapshot_hour" (PyVal.vStr scenarioHour))
       else none) = true
    cases hc : (validate_schema parseOk
        (recSet (mkInsightRec "a2" 4) "snapshot_hour" (PyVal.vStr scenarioHour))
        AD_INSIGHTS_HOURLY_SNAPSHOT_SCHEMA).isEmpty <;> rfl
  · rfl
